import Mathlib

/-!
Shallow embedding of the timeline editing core of the video-app repository.

Times are modelled as exact rationals (`ℚ`): the JavaScript source computes
with IEEE doubles, and every claim under scrutiny is stated "modulo floating
rounding", so the exact-arithmetic model is the intended semantics.

`src/src/mobx/store-modules/cutTimeline.js` is embedded function by function:
`cutTimelineElement`, `adjustElementPropertiesForCut`,
`adjustMediaElementForCut`, `adjustAudioElementForCut`,
`adjustTextElementForCut`, `startFileGhostDragUtil`, `updateFileGhostUtil`,
`finishFileGhostDragUtil`.  JavaScript's mutation of the clip objects becomes
explicit value passing; `JSON.parse(JSON.stringify(...))` deep clones are
value copies; `uuidv4()` becomes an explicit fresh-id parameter.

The JavaScript field `timeFrame.end` is called `stop` here (`end` is a Lean
keyword); a word record's `end` is likewise `stop`.
-/

namespace VideoApp

/-- A `{start, end}` interval in timeline milliseconds (`end` is named `stop`). -/
structure TimeFrame where
  start : ℚ
  stop : ℚ
deriving DecidableEq, Repr

/-- One `{text, start, end}` word-timing record of a text element. -/
structure Word where
  text : String
  start : ℚ
  stop : ℚ
deriving DecidableEq, Repr

/-- The type tag the cut engine switches on: the source branches on the
strings `video`, `imageUrl`, `image`, `audio`, `text`, with a default for
everything else. -/
inductive ElementType where
  | video
  | audio
  | image
  | imageUrl
  | text
  | other
deriving DecidableEq, Repr

/-- The type-specific `properties` payload.  JavaScript objects are dynamic,
so each field the cut engine reads is optional: `none` models an absent
property. -/
structure Props where
  sourceStartTime : Option ℚ
  sourceDuration : Option ℚ
  words : Option (List Word)
deriving DecidableEq, Repr

/-- A timeline element.  `id` is opaque and modelled as `ℕ`;
`element.properties` can itself be absent (`none`), as the adjustment
functions check `if (originalElement.properties)`. -/
structure TimelineElement where
  id : ℕ
  type : ElementType
  timeFrame : TimeFrame
  properties : Option Props
deriving DecidableEq, Repr

/-- JavaScript `a || d` for the numeric property reads: `a` absent or `0`
(falsy) falls back to `d`. -/
def jsOr (a : Option ℚ) (d : ℚ) : ℚ :=
  match a with
  | none => d
  | some x => if x = 0 then d else x

/-- `{...p}` with missing object defaulting to the empty spread. -/
def propsOrEmpty (p : Option Props) : Props :=
  p.getD ⟨none, none, none⟩

/-- `adjustMediaElementForCut` (cutTimeline.js lines 136-174): images are
left untouched; for other media with a `properties` object the source window
is split proportionally at the cut position. -/
def adjustMediaElementForCut (firstClip secondClip originalElement : TimelineElement)
    (cutPosition elementDuration : ℚ) : TimelineElement × TimelineElement :=
  if originalElement.type = ElementType.image ∨ originalElement.type = ElementType.imageUrl then
    (firstClip, secondClip)
  else
    match originalElement.properties with
    | none => (firstClip, secondClip)
    | some props =>
      let originalSourceTime := jsOr props.sourceStartTime 0
      let sourceDuration := jsOr props.sourceDuration elementDuration
      let sourceTimeAtCut :=
        originalSourceTime + (cutPosition / elementDuration) * sourceDuration
      let fprops : Props :=
        { propsOrEmpty firstClip.properties with
          sourceStartTime := some originalSourceTime,
          sourceDuration := some (sourceTimeAtCut - originalSourceTime) }
      let sprops : Props :=
        { propsOrEmpty secondClip.properties with
          sourceStartTime := some sourceTimeAtCut,
          sourceDuration := some (sourceDuration - (sourceTimeAtCut - originalSourceTime)) }
      ({ firstClip with properties := some fprops },
       { secondClip with properties := some sprops })

/-- `adjustAudioElementForCut` (cutTimeline.js lines 180-201): only
`sourceStartTime` is adjusted, by the additive cut offset. -/
def adjustAudioElementForCut (firstClip secondClip originalElement : TimelineElement)
    (cutPosition _elementDuration : ℚ) : TimelineElement × TimelineElement :=
  match originalElement.properties with
  | none => (firstClip, secondClip)
  | some props =>
    let originalSourceTime := jsOr props.sourceStartTime 0
    let fprops : Props :=
      { propsOrEmpty firstClip.properties with sourceStartTime := some originalSourceTime }
    let sprops : Props :=
      { propsOrEmpty secondClip.properties with
        sourceStartTime := some (originalSourceTime + cutPosition) }
    ({ firstClip with properties := some fprops },
     { secondClip with properties := some sprops })

/-- The `words.filter(word => word.end <= cutTimeAbsolute)` predicate. -/
def wordEndsBy (cutTimeAbsolute : ℚ) (w : Word) : Bool :=
  w.stop ≤ cutTimeAbsolute

/-- The `words.filter(word => word.start >= cutTimeAbsolute)` predicate. -/
def wordStartsFrom (cutTimeAbsolute : ℚ) (w : Word) : Bool :=
  cutTimeAbsolute ≤ w.start

/-- The `.map(word => ({...word, start: word.start - cutPosition, end: word.end - cutPosition}))` rebasing. -/
def shiftWord (cutPosition : ℚ) (w : Word) : Word :=
  { w with start := w.start - cutPosition, stop := w.stop - cutPosition }

/-- `adjustTextElementForCut` (cutTimeline.js lines 207-247): splits the
`words` array at the absolute cut time; the second clip's words are rebased
by `cutPosition`.  The source's `xs.length > 0 ? xs : []` guard is kept
verbatim. -/
def adjustTextElementForCut (firstClip secondClip originalElement : TimelineElement)
    (cutPosition _elementDuration : ℚ) : TimelineElement × TimelineElement :=
  match originalElement.properties with
  | none => (firstClip, secondClip)
  | some props =>
    match props.words with
    | none => (firstClip, secondClip)
    | some words =>
      let elementStart := originalElement.timeFrame.start
      let cutTimeAbsolute := elementStart + cutPosition
      let firstWords := words.filter (wordEndsBy cutTimeAbsolute)
      let secondWords := (words.filter (wordStartsFrom cutTimeAbsolute)).map (shiftWord cutPosition)
      let fprops : Props :=
        { propsOrEmpty firstClip.properties with
          words := some (if firstWords.length > 0 then firstWords else []) }
      let sprops : Props :=
        { propsOrEmpty secondClip.properties with
          words := some (if secondWords.length > 0 then secondWords else []) }
      ({ firstClip with properties := some fprops },
       { secondClip with properties := some sprops })

/-- `adjustElementPropertiesForCut` (cutTimeline.js lines 81-130): computes
`elementDuration` and `cutPosition` and dispatches on the element type;
unrecognized types keep the plain copies. -/
def adjustElementPropertiesForCut (firstClip secondClip originalElement : TimelineElement)
    (cutTime : ℚ) (elementType : ElementType) : TimelineElement × TimelineElement :=
  let elementDuration := originalElement.timeFrame.stop - originalElement.timeFrame.start
  let cutPosition := cutTime - originalElement.timeFrame.start
  match elementType with
  | ElementType.video =>
      adjustMediaElementForCut firstClip secondClip originalElement cutPosition elementDuration
  | ElementType.imageUrl =>
      adjustMediaElementForCut firstClip secondClip originalElement cutPosition elementDuration
  | ElementType.image =>
      adjustMediaElementForCut firstClip secondClip originalElement cutPosition elementDuration
  | ElementType.audio =>
      adjustAudioElementForCut firstClip secondClip originalElement cutPosition elementDuration
  | ElementType.text =>
      adjustTextElementForCut firstClip secondClip originalElement cutPosition elementDuration
  | ElementType.other => (firstClip, secondClip)

/-- Lines 29-49 of `cutTimelineElement`: build the two clips (deep clones of
the element with the split `timeFrame`s, the first keeping the original id,
the second getting the fresh one) and run the type-specific adjustment. -/
def cutClips (element : TimelineElement) (cutTime : ℚ) (newId : ℕ) :
    TimelineElement × TimelineElement :=
  let firstClip : TimelineElement :=
    { element with id := element.id,
                   timeFrame := { start := element.timeFrame.start, stop := cutTime } }
  let secondClip : TimelineElement :=
    { element with id := newId,
                   timeFrame := { start := cutTime, stop := element.timeFrame.stop } }
  adjustElementPropertiesForCut firstClip secondClip element cutTime element.type

/-- The candidate `fileGhostElement` built by the ghost-drag utilities:
`{ type, duration, timeFrame }`, with `row` added later by
`updateFileGhostUtil`. -/
structure FileGhostElement where
  type : ElementType
  duration : ℚ
  timeFrame : TimeFrame
  row : Option ℕ
deriving DecidableEq, Repr

/-- The `store.ghostState` record touched by the ghost-drag utilities.
`fileData` is an opaque reference to the dragged file, modelled as `ℕ`. -/
structure GhostState where
  isFileDragging : Bool
  fileData : Option ℕ
  fileGhostElement : Option FileGhostElement
  ghostMarkerPosition : Option ℚ
  dragOverRowIndex : Option ℕ
  isIncompatibleRow : Bool
deriving DecidableEq, Repr

/-- The slice of the MobX store the embedded operations read and write:
the ordered element list, the current selection (by id), and the transient
ghost-drag state.  (`refreshElements` recomputes a derived maximum-time
bound owned by store code outside this module; no claim mentions it, so it
is not part of the state.) -/
structure Store where
  editorElements : List TimelineElement
  selectedElement : Option ℕ
  ghostState : GhostState
deriving DecidableEq, Repr

/-- `cutTimelineElement` (cutTimeline.js lines 10-75): look the element up
by id, reject an out-of-range cut time, otherwise build the two clips,
remove the original and splice the clips in at its index, and clear the
selection.  `uuidv4()` is the explicit `newId`. -/
def cutTimelineElement (store : Store) (elementId : ℕ) (cutTime : ℚ) (newId : ℕ) : Store :=
  match store.editorElements.find? (fun el => el.id == elementId) with
  | none => store
  | some element =>
    if cutTime ≤ element.timeFrame.start ∨ element.timeFrame.stop ≤ cutTime then
      store
    else
      let clips := cutClips element cutTime newId
      let removed := store.editorElements.filter (fun el => !(el.id == elementId))
      let elementIndex := store.editorElements.findIdx (fun el => el.id == elementId)
      let updatedElements :=
        removed.take elementIndex ++ [clips.1, clips.2] ++ removed.drop elementIndex
      { store with editorElements := updatedElements, selectedElement := none }

/-- `startFileGhostDragUtil` (cutTimeline.js lines 250-264): unconditionally
marks a file drag as active and installs the dragged file and a fresh
candidate element with `timeFrame {0, defaultDuration}`. -/
def startFileGhostDragUtil (store : Store) (file : ℕ) (elementType : ElementType)
    (defaultDuration : ℚ) : Store :=
  { store with ghostState :=
    { store.ghostState with
      isFileDragging := true,
      fileData := some file,
      fileGhostElement := some
        { type := elementType,
          duration := defaultDuration,
          timeFrame := { start := 0, stop := defaultDuration },
          row := none } } }

/-- `updateFileGhostUtil` (cutTimeline.js lines 266-284): no-op unless a
drag is active with a candidate element; otherwise records the marker
position, target row and compatibility flag and moves the candidate's
`timeFrame` to `{newPosition, newPosition + duration}`. -/
def updateFileGhostUtil (store : Store) (newPosition : ℚ) (rowIndex : ℕ)
    (isIncompatible : Bool) : Store :=
  match store.ghostState.fileGhostElement with
  | none => store
  | some ghost =>
    if store.ghostState.isFileDragging = false then store
    else
      { store with ghostState :=
        { store.ghostState with
          ghostMarkerPosition := some newPosition,
          dragOverRowIndex := some rowIndex,
          isIncompatibleRow := isIncompatible,
          fileGhostElement := some
            { ghost with
              row := some rowIndex,
              timeFrame := { start := newPosition, stop := newPosition + ghost.duration } } } }

/-- The fields `finishFileGhostDragUtil` resets (cutTimeline.js lines
296-301). -/
def clearedGhostState (gs : GhostState) : GhostState :=
  { gs with
    isFileDragging := false,
    fileGhostElement := none,
    fileData := none,
    ghostMarkerPosition := none,
    dragOverRowIndex := none,
    isIncompatibleRow := false }

/-- A commit callback: given the final position and row index it transforms
the (mutable, closure-captured) store and reports whether it threw.  The
`Bool` result `true` models a raised exception propagating out of the
callback. -/
def CommitCallback : Type :=
  ℚ → ℕ → Store → Store × Bool

/-- `finishFileGhostDragUtil` (cutTimeline.js lines 286-303): no-op unless a
drag is active; otherwise runs the callback when one is supplied and then
resets every ghost field.  There is no `try/finally` in the source, so an
exception raised by the callback (`threw = true`) propagates before the
reset lines run: the result is then the store as the callback left it,
paired with `true`. -/
def finishFileGhostDragUtil (store : Store) (finalPosition : ℚ) (rowIndex : ℕ)
    (callback : Option CommitCallback) : Store × Bool :=
  if store.ghostState.isFileDragging = false then (store, false)
  else
    match callback with
    | none => ({ store with ghostState := clearedGhostState store.ghostState }, false)
    | some cb =>
      let r := cb finalPosition rowIndex store
      if r.2 then (r.1, true)
      else ({ r.1 with ghostState := clearedGhostState r.1.ghostState }, false)

/-- Modelled from the spec: the Zoom Manager lives in
`src/utils/timeline/TimelineManager`, which is not among the provided
source files (only its callers `useTimelineZoom.js` and the timeline
scrollbar are).  Per the spec, every zoom mutation clamps `zoomValue` to
the closed interval `[1, 29.5]`. -/
def clampZoom (v : ℚ) : ℚ :=
  max 1 (min (59 / 2) v)

/-- Modelled from the spec: `setZoomValue(value)` clamps and assigns
directly, ignoring the prior zoom state. -/
def setZoomValue (_zoomValue v : ℚ) : ℚ :=
  clampZoom v

/-- Modelled from the spec: `zoomIn(step)` adjusts `zoomValue` by `+step`,
clamped to `[1, 29.5]`. -/
def zoomIn (zoomValue step : ℚ) : ℚ :=
  clampZoom (zoomValue + step)

/-- Modelled from the spec: `zoomOut(step)` adjusts `zoomValue` by `-step`,
clamped to `[1, 29.5]`. -/
def zoomOut (zoomValue step : ℚ) : ℚ :=
  clampZoom (zoomValue - step)

/-- Modelled from the spec: `resetZoom()` restores a fixed default level;
the scrollbar geometry (`(scale - 1) / 28.5`) pins the scale's base point
at `1`, which is taken as the default. -/
def resetZoom (_zoomValue : ℚ) : ℚ :=
  1

/-- The `properties.words` array of an element, empty when absent: the
reading the spec's claims perform on a clip. -/
def wordsOf (e : TimelineElement) : List Word :=
  ((propsOrEmpty e.properties).words).getD []

/-- The `properties.sourceStartTime` of an element, as stored. -/
def srcStart (e : TimelineElement) : Option ℚ :=
  (propsOrEmpty e.properties).sourceStartTime

/-- The `properties.sourceDuration` of an element, as stored. -/
def srcDur (e : TimelineElement) : Option ℚ :=
  (propsOrEmpty e.properties).sourceDuration

/-- The source-position formula the spec states for a video cut:
`sourceStartTime + (cutPosition / elementDuration) * sourceDuration`. -/
def sourceTimeAtCut (element : TimelineElement) (cutTime ost sd : ℚ) : ℚ :=
  ost + ((cutTime - element.timeFrame.start) /
    (element.timeFrame.stop - element.timeFrame.start)) * sd

/-- The spec's subtitle example: a `text` element on `[0, 4000)` with words
`[{0,1000}, {1000,2000}, {2500,3500}]`. -/
def exampleTextElement : TimelineElement :=
  { id := 1, type := ElementType.text,
    timeFrame := { start := 0, stop := 4000 },
    properties := some
      { sourceStartTime := none, sourceDuration := none,
        words := some [⟨"a", 0, 1000⟩, ⟨"b", 1000, 2000⟩, ⟨"c", 2500, 3500⟩] } }

/-- The spec's video example: `sourceStartTime=0`, `sourceDuration=10000`,
`timeFrame={0,10000}`. -/
def exampleVideoElement : TimelineElement :=
  { id := 2, type := ElementType.video,
    timeFrame := { start := 0, stop := 10000 },
    properties := some
      { sourceStartTime := some 0, sourceDuration := some 10000, words := none } }

/-- An audio element carrying a `sourceDuration`, for probing the media
invariants on the `audio` branch. -/
def exampleAudioElement : TimelineElement :=
  { id := 3, type := ElementType.audio,
    timeFrame := { start := 0, stop := 10000 },
    properties := some
      { sourceStartTime := some 0, sourceDuration := some 10000, words := none } }

/-- A `text` element holding a single zero-span word sitting exactly on a
cut point. -/
def exampleDegenerateTextElement : TimelineElement :=
  { id := 4, type := ElementType.text,
    timeFrame := { start := 0, stop := 4000 },
    properties := some
      { sourceStartTime := none, sourceDuration := none,
        words := some [⟨"x", 2200, 2200⟩] } }

/-- A quiescent ghost state. -/
def idleGhostState : GhostState :=
  { isFileDragging := false, fileData := none, fileGhostElement := none,
    ghostMarkerPosition := none, dragOverRowIndex := none, isIncompatibleRow := false }

/-- A store holding the two example elements with nothing selected and no
drag active. -/
def exampleStore : Store :=
  { editorElements := [exampleTextElement, exampleVideoElement],
    selectedElement := some 1,
    ghostState := idleGhostState }

/-- A store in the middle of a file ghost drag (file `7`, a video candidate,
marker at `5`, hovering row `2`). -/
def draggingStore : Store :=
  { editorElements := [exampleVideoElement],
    selectedElement := none,
    ghostState :=
      { isFileDragging := true, fileData := some 7,
        fileGhostElement := some
          { type := ElementType.video, duration := 1000,
            timeFrame := { start := 0, stop := 1000 }, row := none },
        ghostMarkerPosition := some 5, dragOverRowIndex := some 2,
        isIncompatibleRow := false } }

/-- A commit callback that raises before touching the store. -/
def throwingCallback : CommitCallback :=
  fun _ _ s => (s, true)

/-- The type-specific adjustment step rewrites only `properties`: the
`timeFrame` and `id` of both clips pass through untouched. -/
theorem adjust_preserves_frame_and_id (f s e : TimelineElement) (c : ℚ) (t : ElementType) :
    (adjustElementPropertiesForCut f s e c t).1.timeFrame = f.timeFrame ∧
    (adjustElementPropertiesForCut f s e c t).2.timeFrame = s.timeFrame ∧
    (adjustElementPropertiesForCut f s e c t).1.id = f.id ∧
    (adjustElementPropertiesForCut f s e c t).2.id = s.id := by
  unfold adjustElementPropertiesForCut adjustMediaElementForCut
    adjustAudioElementForCut adjustTextElementForCut
  cases t <;> (repeat' split) <;> exact ⟨rfl, rfl, rfl, rfl⟩

/-- The two clips built by `cutClips` carry the split `timeFrame`s; the
first keeps the element's id and the second gets the fresh one. -/
theorem cutClips_frame_and_id (e : TimelineElement) (c : ℚ) (n : ℕ) :
    (cutClips e c n).1.timeFrame = { start := e.timeFrame.start, stop := c } ∧
    (cutClips e c n).2.timeFrame = { start := c, stop := e.timeFrame.stop } ∧
    (cutClips e c n).1.id = e.id ∧
    (cutClips e c n).2.id = n := by
  unfold cutClips
  exact adjust_preserves_frame_and_id _ _ _ _ _

/-- On a successful cut — element found, cut time strictly inside its time
frame — the new element list is the old one with the found element removed
and the two clips spliced in at its index. -/
theorem cutTimelineElement_success_elements (store : Store) (elementId newId : ℕ)
    (element : TimelineElement) (cutTime : ℚ)
    (hfind : store.editorElements.find? (fun el => el.id == elementId) = some element)
    (h1 : element.timeFrame.start < cutTime) (h2 : cutTime < element.timeFrame.stop) :
    (cutTimelineElement store elementId cutTime newId).editorElements =
      (store.editorElements.filter (fun el => !(el.id == elementId))).take
          (store.editorElements.findIdx (fun el => el.id == elementId)) ++
        [(cutClips element cutTime newId).1, (cutClips element cutTime newId).2] ++
        (store.editorElements.filter (fun el => !(el.id == elementId))).drop
          (store.editorElements.findIdx (fun el => el.id == elementId)) := by
  unfold cutTimelineElement
  split
  case h_1 heq => rw [heq] at hfind; exact Option.noConfusion hfind
  case h_2 el heq =>
    rw [heq] at hfind
    cases Option.some.inj hfind
    rw [if_neg (by push_neg; exact ⟨h1, h2⟩)]

/-- C1: for every store, element found in it and cut time strictly inside
the element's time frame, the successful cut yields a first clip spanning
`[start, cutTime)` and a second spanning `[cutTime, end)`; the first clip's
end and second clip's start both equal `cutTime`, the two half-open ranges
union to exactly the original range, they are disjoint, and both clips land
in the updated store. -/
theorem cut_splits_range_exactly (store : Store) (elementId newId : ℕ)
    (element : TimelineElement) (cutTime : ℚ)
    (hfind : store.editorElements.find? (fun el => el.id == elementId) = some element)
    (h1 : element.timeFrame.start < cutTime) (h2 : cutTime < element.timeFrame.stop) :
    (cutClips element cutTime newId).1.timeFrame =
      { start := element.timeFrame.start, stop := cutTime } ∧
    (cutClips element cutTime newId).2.timeFrame =
      { start := cutTime, stop := element.timeFrame.stop } ∧
    (cutClips element cutTime newId).1.timeFrame.stop = cutTime ∧
    (cutClips element cutTime newId).2.timeFrame.start = cutTime ∧
    Set.Ico (cutClips element cutTime newId).1.timeFrame.start
        (cutClips element cutTime newId).1.timeFrame.stop ∪
      Set.Ico (cutClips element cutTime newId).2.timeFrame.start
        (cutClips element cutTime newId).2.timeFrame.stop =
      Set.Ico element.timeFrame.start element.timeFrame.stop ∧
    Disjoint
      (Set.Ico (cutClips element cutTime newId).1.timeFrame.start
        (cutClips element cutTime newId).1.timeFrame.stop)
      (Set.Ico (cutClips element cutTime newId).2.timeFrame.start
        (cutClips element cutTime newId).2.timeFrame.stop) ∧
    (cutClips element cutTime newId).1 ∈
      (cutTimelineElement store elementId cutTime newId).editorElements ∧
    (cutClips element cutTime newId).2 ∈
      (cutTimelineElement store elementId cutTime newId).editorElements := by
  obtain ⟨hf, hs, -, -⟩ := cutClips_frame_and_id element cutTime newId
  have hmem : (cutClips element cutTime newId).1 ∈
      (cutTimelineElement store elementId cutTime newId).editorElements ∧
      (cutClips element cutTime newId).2 ∈
      (cutTimelineElement store elementId cutTime newId).editorElements := by
    rw [cutTimelineElement_success_elements store elementId newId element cutTime hfind h1 h2]
    simp [List.mem_append]
  refine ⟨hf, hs, by rw [hf], by rw [hs], ?_, ?_, hmem.1, hmem.2⟩
  · rw [hf, hs]
    exact Set.Ico_union_Ico_eq_Ico (le_of_lt h1) (le_of_lt h2)
  · rw [hf, hs]
    exact Set.Ico_disjoint_Ico_same

/-- Witness for C1 at the spec's subtitle example: element 1 of the example
store is cut at 2200, strictly inside `[0, 4000)`. -/
theorem cut_splits_range_exactly_witness :
    (exampleStore.editorElements.find? (fun el => el.id == 1) = some exampleTextElement ∧
      exampleTextElement.timeFrame.start < (2200 : ℚ) ∧
      (2200 : ℚ) < exampleTextElement.timeFrame.stop) ∧
    ((cutClips exampleTextElement 2200 99).1.timeFrame =
      { start := exampleTextElement.timeFrame.start, stop := 2200 } ∧
    (cutClips exampleTextElement 2200 99).2.timeFrame =
      { start := 2200, stop := exampleTextElement.timeFrame.stop } ∧
    (cutClips exampleTextElement 2200 99).1.timeFrame.stop = 2200 ∧
    (cutClips exampleTextElement 2200 99).2.timeFrame.start = 2200 ∧
    Set.Ico (cutClips exampleTextElement 2200 99).1.timeFrame.start
        (cutClips exampleTextElement 2200 99).1.timeFrame.stop ∪
      Set.Ico (cutClips exampleTextElement 2200 99).2.timeFrame.start
        (cutClips exampleTextElement 2200 99).2.timeFrame.stop =
      Set.Ico exampleTextElement.timeFrame.start exampleTextElement.timeFrame.stop ∧
    Disjoint
      (Set.Ico (cutClips exampleTextElement 2200 99).1.timeFrame.start
        (cutClips exampleTextElement 2200 99).1.timeFrame.stop)
      (Set.Ico (cutClips exampleTextElement 2200 99).2.timeFrame.start
        (cutClips exampleTextElement 2200 99).2.timeFrame.stop) ∧
    (cutClips exampleTextElement 2200 99).1 ∈
      (cutTimelineElement exampleStore 1 2200 99).editorElements ∧
    (cutClips exampleTextElement 2200 99).2 ∈
      (cutTimelineElement exampleStore 1 2200 99).editorElements) :=
  ⟨⟨by decide, by decide, by decide⟩,
    cut_splits_range_exactly exampleStore 1 99 exampleTextElement 2200
      (by decide) (by decide) (by decide)⟩

/-- C2: when the element id is not found, or the cut time is not strictly
inside the found element's time frame, `cutTimelineElement` returns the
store unchanged — element sequence, selection and ghost state included. -/
theorem cut_reject_leaves_store_unchanged (store : Store) (elementId newId : ℕ) (cutTime : ℚ)
    (h : ∀ element, store.editorElements.find? (fun el => el.id == elementId) = some element →
      cutTime ≤ element.timeFrame.start ∨ element.timeFrame.stop ≤ cutTime) :
    cutTimelineElement store elementId cutTime newId = store := by
  unfold cutTimelineElement
  cases hf : store.editorElements.find? (fun el => el.id == elementId) with
  | none => rfl
  | some element => exact if_pos (h element hf)

/-- Witness for C2: cutting element 1 of the example store at 9999, which
is at or past its end 4000, leaves the store untouched. -/
theorem cut_reject_leaves_store_unchanged_witness :
    (∀ element,
      exampleStore.editorElements.find? (fun el => el.id == 1) = some element →
      (9999 : ℚ) ≤ element.timeFrame.start ∨ element.timeFrame.stop ≤ (9999 : ℚ)) ∧
    cutTimelineElement exampleStore 1 9999 1234 = exampleStore := by
  have h : ∀ element,
      exampleStore.editorElements.find? (fun el => el.id == 1) = some element →
      (9999 : ℚ) ≤ element.timeFrame.start ∨ element.timeFrame.stop ≤ (9999 : ℚ) :=
    fun element hel =>
      Or.inr ((Option.some.inj hel) ▸
        (by decide : exampleTextElement.timeFrame.stop ≤ (9999 : ℚ)))
  exact ⟨h, cut_reject_leaves_store_unchanged exampleStore 1 1234 9999 h⟩

/-- `a || 0` on a present numeric property is the property itself. -/
theorem jsOr_some_zero (x : ℚ) : jsOr (some x) 0 = x := by
  by_cases h : x = 0 <;> simp [jsOr, h]

/-- The video branch of the cut: both clips' source window, computed from
the element's `sourceStartTime`/`sourceDuration` via the proportional
`sourceTimeAtCut` formula. -/
theorem cutClips_video_props (element : TimelineElement) (p : Props) (sd ost cutTime : ℚ)
    (newId : ℕ)
    (htype : element.type = ElementType.video)
    (hp : element.properties = some p)
    (host : p.sourceStartTime = some ost)
    (hsd : p.sourceDuration = some sd) (hsd0 : sd ≠ 0) :
    srcStart (cutClips element cutTime newId).1 = some ost ∧
    srcDur (cutClips element cutTime newId).1 =
      some (sourceTimeAtCut element cutTime ost sd - ost) ∧
    srcStart (cutClips element cutTime newId).2 =
      some (sourceTimeAtCut element cutTime ost sd) ∧
    srcDur (cutClips element cutTime newId).2 =
      some (sd - (sourceTimeAtCut element cutTime ost sd - ost)) := by
  simp [cutClips, adjustElementPropertiesForCut, adjustMediaElementForCut, htype, hp, host,
    hsd, hsd0, srcStart, srcDur, propsOrEmpty, jsOr_some_zero, jsOr, sourceTimeAtCut]
  exact fun h => h.symm

/-- C3 counterexample: on an `audio` element with `sourceStartTime = 0`,
`sourceDuration = 10000` and time frame `[0, 10000)`, cutting at 4000 keeps
`sourceDuration = 10000` on both clips (the audio branch never adjusts it),
so the clips' source durations sum to 20000, not the original 10000, and
the second clip's `sourceStartTime` (4000) differs from the first clip's
`sourceStartTime + sourceDuration` (10000). -/
theorem cut_audio_source_sum_fails :
    exampleAudioElement.type = ElementType.audio ∧
    exampleAudioElement.timeFrame.start < (4000 : ℚ) ∧
    (4000 : ℚ) < exampleAudioElement.timeFrame.stop ∧
    srcDur exampleAudioElement = some 10000 ∧
    srcDur (cutClips exampleAudioElement 4000 99).1 = some 10000 ∧
    srcDur (cutClips exampleAudioElement 4000 99).2 = some 10000 ∧
    (10000 : ℚ) + 10000 ≠ 10000 ∧
    srcStart (cutClips exampleAudioElement 4000 99).1 = some 0 ∧
    srcStart (cutClips exampleAudioElement 4000 99).2 = some 4000 ∧
    (4000 : ℚ) ≠ 0 + 10000 := by
  refine ⟨rfl, by norm_num [exampleAudioElement], by norm_num [exampleAudioElement], rfl, ?_⟩
  norm_num [cutClips, adjustElementPropertiesForCut, adjustAudioElementForCut,
    exampleAudioElement, srcDur, srcStart, propsOrEmpty, jsOr]

/-- C3 (amended to the cases the code satisfies): for `video` elements the
two clips' source durations sum exactly to the original `sourceDuration`,
and the second clip's `sourceStartTime` equals the first clip's
`sourceStartTime + sourceDuration`.  For `audio` the code copies
`sourceDuration` unchanged to both clips, so only the additive
`sourceStartTime` offset holds there: the second clip starts at the
original `sourceStartTime + cutPosition`. -/
theorem cut_video_source_sum_invariant (element : TimelineElement) (p : Props)
    (sd ost cutTime : ℚ) (newId : ℕ)
    (htype : element.type = ElementType.video)
    (hp : element.properties = some p)
    (host : p.sourceStartTime = some ost)
    (hsd : p.sourceDuration = some sd) (hsd0 : sd ≠ 0)
    (_h1 : element.timeFrame.start < cutTime) (_h2 : cutTime < element.timeFrame.stop) :
    ∃ fStart fDur sStart sDur : ℚ,
      srcStart (cutClips element cutTime newId).1 = some fStart ∧
      srcDur (cutClips element cutTime newId).1 = some fDur ∧
      srcStart (cutClips element cutTime newId).2 = some sStart ∧
      srcDur (cutClips element cutTime newId).2 = some sDur ∧
      fDur + sDur = sd ∧
      sStart = fStart + fDur := by
  obtain ⟨ha, hb, hc, hd⟩ := cutClips_video_props element p sd ost cutTime newId htype hp host hsd hsd0
  exact ⟨ost, sourceTimeAtCut element cutTime ost sd - ost,
    sourceTimeAtCut element cutTime ost sd,
    sd - (sourceTimeAtCut element cutTime ost sd - ost),
    ha, hb, hc, hd, by ring, by ring⟩

/-- Witness for the amended C3 at the spec's video example. -/
theorem cut_video_source_sum_invariant_witness :
    (exampleVideoElement.type = ElementType.video ∧
      exampleVideoElement.properties = some ⟨some 0, some 10000, none⟩ ∧
      (10000 : ℚ) ≠ 0 ∧
      exampleVideoElement.timeFrame.start < (4000 : ℚ) ∧
      (4000 : ℚ) < exampleVideoElement.timeFrame.stop) ∧
    (∃ fStart fDur sStart sDur : ℚ,
      srcStart (cutClips exampleVideoElement 4000 99).1 = some fStart ∧
      srcDur (cutClips exampleVideoElement 4000 99).1 = some fDur ∧
      srcStart (cutClips exampleVideoElement 4000 99).2 = some sStart ∧
      srcDur (cutClips exampleVideoElement 4000 99).2 = some sDur ∧
      fDur + sDur = 10000 ∧
      sStart = fStart + fDur) :=
  ⟨⟨by decide, by decide, by decide, by decide, by decide⟩,
    cut_video_source_sum_invariant exampleVideoElement ⟨some 0, some 10000, none⟩ 10000 0 4000 99
      (by decide) (by decide) (by decide) (by decide) (by decide) (by decide) (by decide)⟩

/-- C7: the video cut remaps the source window proportionally: with
`sourceTimeAtCut = sourceStartTime + (cutPosition / elementDuration) *
sourceDuration`, the first clip keeps the original `sourceStartTime` with
duration `sourceTimeAtCut - sourceStartTime`, the second starts at
`sourceTimeAtCut` with the remaining duration; in particular the spec's
example (`sourceStartTime=0`, `sourceDuration=10000`, time frame
`[0,10000)`, cut at 4000) yields first-clip source duration 4000 and a
second clip starting at source time 4000 with duration 6000. -/
theorem cut_video_source_remap (element : TimelineElement) (p : Props)
    (sd ost cutTime : ℚ) (newId : ℕ)
    (htype : element.type = ElementType.video)
    (hp : element.properties = some p)
    (host : p.sourceStartTime = some ost)
    (hsd : p.sourceDuration = some sd) (hsd0 : sd ≠ 0)
    (_h1 : element.timeFrame.start < cutTime) (_h2 : cutTime < element.timeFrame.stop) :
    (srcStart (cutClips element cutTime newId).1 = some ost ∧
    srcDur (cutClips element cutTime newId).1 =
      some (sourceTimeAtCut element cutTime ost sd - ost) ∧
    srcStart (cutClips element cutTime newId).2 =
      some (sourceTimeAtCut element cutTime ost sd) ∧
    srcDur (cutClips element cutTime newId).2 =
      some (sd - (sourceTimeAtCut element cutTime ost sd - ost))) ∧
    (srcStart (cutClips exampleVideoElement 4000 99).1 = some 0 ∧
    srcDur (cutClips exampleVideoElement 4000 99).1 = some 4000 ∧
    srcStart (cutClips exampleVideoElement 4000 99).2 = some 4000 ∧
    srcDur (cutClips exampleVideoElement 4000 99).2 = some 6000) := by
  refine ⟨cutClips_video_props element p sd ost cutTime newId htype hp host hsd hsd0, ?_⟩
  obtain ⟨ha, hb, hc, hd⟩ := cutClips_video_props exampleVideoElement ⟨some 0, some 10000, none⟩
    10000 0 4000 99 rfl rfl rfl rfl (by norm_num)
  rw [ha, hb, hc, hd]
  norm_num [sourceTimeAtCut, exampleVideoElement]

/-- Witness for C7 at the spec's video example. -/
theorem cut_video_source_remap_witness :
    (exampleVideoElement.type = ElementType.video ∧
      exampleVideoElement.properties = some ⟨some 0, some 10000, none⟩ ∧
      (10000 : ℚ) ≠ 0 ∧
      exampleVideoElement.timeFrame.start < (4000 : ℚ) ∧
      (4000 : ℚ) < exampleVideoElement.timeFrame.stop) ∧
    ((srcStart (cutClips exampleVideoElement 4000 99).1 = some 0 ∧
    srcDur (cutClips exampleVideoElement 4000 99).1 =
      some (sourceTimeAtCut exampleVideoElement 4000 0 10000 - 0) ∧
    srcStart (cutClips exampleVideoElement 4000 99).2 =
      some (sourceTimeAtCut exampleVideoElement 4000 0 10000) ∧
    srcDur (cutClips exampleVideoElement 4000 99).2 =
      some (10000 - (sourceTimeAtCut exampleVideoElement 4000 0 10000 - 0))) ∧
    (srcStart (cutClips exampleVideoElement 4000 99).1 = some 0 ∧
    srcDur (cutClips exampleVideoElement 4000 99).1 = some 4000 ∧
    srcStart (cutClips exampleVideoElement 4000 99).2 = some 4000 ∧
    srcDur (cutClips exampleVideoElement 4000 99).2 = some 6000)) :=
  ⟨⟨by decide, by decide, by decide, by decide, by decide⟩,
    cut_video_source_remap exampleVideoElement ⟨some 0, some 10000, none⟩ 10000 0 4000 99
      (by decide) (by decide) (by decide) (by decide) (by decide) (by decide) (by decide)⟩

/-- The source's `xs.length > 0 ? xs : []` guard is the identity. -/
theorem lengthGuard_eq {α : Type} (l : List α) : (if l.length > 0 then l else []) = l := by
  cases l <;> simp

/-- Rebasing by a fixed offset is injective on words. -/
theorem shiftWord_injective (c : ℚ) : Function.Injective (shiftWord c) := by
  intro a b h
  cases a
  cases b
  simp only [shiftWord, Word.mk.injEq] at h ⊢
  exact ⟨h.1, by linarith [h.2.1], by linarith [h.2.2]⟩

/-- The text branch of the cut: the first clip's words are those ending by
the cut time, the second clip's are those starting at or after it, rebased
by `cutPosition = cutTime - start`. -/
theorem cutClips_text_words (element : TimelineElement) (p : Props) (ws : List Word)
    (cutTime : ℚ) (newId : ℕ)
    (htype : element.type = ElementType.text)
    (hp : element.properties = some p)
    (hws : p.words = some ws) :
    wordsOf (cutClips element cutTime newId).1 = ws.filter (wordEndsBy cutTime) ∧
    wordsOf (cutClips element cutTime newId).2 =
      (ws.filter (wordStartsFrom cutTime)).map (shiftWord (cutTime - element.timeFrame.start)) := by
  have hct : element.timeFrame.start + (cutTime - element.timeFrame.start) = cutTime := by ring
  simp only [cutClips, adjustElementPropertiesForCut, adjustTextElementForCut, htype, hp, hws,
    wordsOf, propsOrEmpty, lengthGuard_eq, hct]
  simp [propsOrEmpty]

/-- C4: for every text element with a words array and a cut strictly inside
its time frame, every word ending strictly before the cut time is in the
first clip's words unmodified, and every word starting at or after the cut
time is in the second clip's words shifted left by
`cutPosition = cutTime - start`; in particular the spec's example — words
`[{0,1000},{1000,2000},{2500,3500}]`, element starting at 0, cut at 2200 —
yields first-clip words `[{0,1000},{1000,2000}]` and second-clip words
`[{300,1300}]`. -/
theorem cut_text_words_split (element : TimelineElement) (p : Props) (ws : List Word)
    (cutTime : ℚ) (newId : ℕ)
    (htype : element.type = ElementType.text)
    (hp : element.properties = some p)
    (hws : p.words = some ws)
    (_h1 : element.timeFrame.start < cutTime) (_h2 : cutTime < element.timeFrame.stop) :
    (∀ w ∈ ws, w.stop < cutTime → w ∈ wordsOf (cutClips element cutTime newId).1) ∧
    (∀ w ∈ ws, cutTime ≤ w.start →
      shiftWord (cutTime - element.timeFrame.start) w ∈
        wordsOf (cutClips element cutTime newId).2) ∧
    wordsOf (cutClips exampleTextElement 2200 99).1 =
      [⟨"a", 0, 1000⟩, ⟨"b", 1000, 2000⟩] ∧
    wordsOf (cutClips exampleTextElement 2200 99).2 = [⟨"c", 300, 1300⟩] := by
  obtain ⟨hf, hs⟩ := cutClips_text_words element p ws cutTime newId htype hp hws
  obtain ⟨hf2, hs2⟩ := cutClips_text_words exampleTextElement
    ⟨none, none, some [⟨"a", 0, 1000⟩, ⟨"b", 1000, 2000⟩, ⟨"c", 2500, 3500⟩]⟩
    [⟨"a", 0, 1000⟩, ⟨"b", 1000, 2000⟩, ⟨"c", 2500, 3500⟩] 2200 99 rfl rfl rfl
  refine ⟨?_, ?_, ?_, ?_⟩
  · intro w hw hlt
    rw [hf]
    exact List.mem_filter.mpr ⟨hw, by simp only [wordEndsBy, decide_eq_true_eq]; linarith⟩
  · intro w hw hle
    rw [hs]
    exact List.mem_map_of_mem _
      (List.mem_filter.mpr ⟨hw, by simp only [wordStartsFrom, decide_eq_true_eq]; exact hle⟩)
  · rw [hf2]
    norm_num [wordEndsBy, exampleTextElement]
  · rw [hs2]
    norm_num [wordStartsFrom, shiftWord, exampleTextElement]

/-- Witness for C4 at the spec's subtitle example. -/
theorem cut_text_words_split_witness :
    (exampleTextElement.type = ElementType.text ∧
      exampleTextElement.properties =
        some ⟨none, none, some [⟨"a", 0, 1000⟩, ⟨"b", 1000, 2000⟩, ⟨"c", 2500, 3500⟩]⟩ ∧
      exampleTextElement.timeFrame.start < (2200 : ℚ) ∧
      (2200 : ℚ) < exampleTextElement.timeFrame.stop) ∧
    ((∀ w ∈ [(⟨"a", 0, 1000⟩ : Word), ⟨"b", 1000, 2000⟩, ⟨"c", 2500, 3500⟩],
      w.stop < 2200 → w ∈ wordsOf (cutClips exampleTextElement 2200 99).1) ∧
    (∀ w ∈ [(⟨"a", 0, 1000⟩ : Word), ⟨"b", 1000, 2000⟩, ⟨"c", 2500, 3500⟩],
      (2200 : ℚ) ≤ w.start →
      shiftWord (2200 - exampleTextElement.timeFrame.start) w ∈
        wordsOf (cutClips exampleTextElement 2200 99).2) ∧
    wordsOf (cutClips exampleTextElement 2200 99).1 =
      [⟨"a", 0, 1000⟩, ⟨"b", 1000, 2000⟩] ∧
    wordsOf (cutClips exampleTextElement 2200 99).2 = [⟨"c", 300, 1300⟩]) :=
  ⟨⟨by decide, by decide, by decide, by decide⟩,
    cut_text_words_split exampleTextElement
      ⟨none, none, some [⟨"a", 0, 1000⟩, ⟨"b", 1000, 2000⟩, ⟨"c", 2500, 3500⟩]⟩
      [⟨"a", 0, 1000⟩, ⟨"b", 1000, 2000⟩, ⟨"c", 2500, 3500⟩] 2200 99
      (by decide) (by decide) (by decide) (by decide) (by decide)⟩

/-- C8 counterexample: a degenerate word spanning `{2200, 2200}` with the
cut exactly at 2200 satisfies both filters (`end <= cut` and
`start >= cut`), so it is placed in the first clip AND, rebased, in the
second clip, although it does not straddle the cut point — the claim's
"no word is ever placed in both clips" fails. -/
theorem cut_text_degenerate_word_in_both_clips :
    exampleDegenerateTextElement.type = ElementType.text ∧
    exampleDegenerateTextElement.timeFrame.start < (2200 : ℚ) ∧
    (2200 : ℚ) < exampleDegenerateTextElement.timeFrame.stop ∧
    (⟨"x", 2200, 2200⟩ : Word) ∈ wordsOf (cutClips exampleDegenerateTextElement 2200 99).1 ∧
    shiftWord (2200 - exampleDegenerateTextElement.timeFrame.start) ⟨"x", 2200, 2200⟩ ∈
      wordsOf (cutClips exampleDegenerateTextElement 2200 99).2 ∧
    ¬((2200 : ℚ) < 2200 ∧ (2200 : ℚ) < 2200) := by
  obtain ⟨hf, hs⟩ := cutClips_text_words exampleDegenerateTextElement
    ⟨none, none, some [⟨"x", 2200, 2200⟩]⟩ [⟨"x", 2200, 2200⟩] 2200 99 rfl rfl rfl
  refine ⟨rfl, by norm_num [exampleDegenerateTextElement],
    by norm_num [exampleDegenerateTextElement], ?_, ?_, by norm_num⟩
  · rw [hf]
    norm_num [wordEndsBy]
  · rw [hs]
    norm_num [wordStartsFrom, shiftWord, exampleDegenerateTextElement]

/-- C8 (amended): for every text element, valid in-range cut, and word of
the array whose span is nondegenerate (`start < end`, the data model's
shape for word timings), the word lands in exactly one of the two output
clips — the first if it ends by the cut time, the second (rebased) if it
starts at or after it — and in neither if it straddles the cut point.  A
degenerate word with `start = end = cutTime` is placed in both clips, so
the unrestricted claim fails. -/
theorem cut_text_word_exclusive (element : TimelineElement) (p : Props) (ws : List Word)
    (w : Word) (cutTime : ℚ) (newId : ℕ)
    (htype : element.type = ElementType.text)
    (hp : element.properties = some p)
    (hws : p.words = some ws)
    (hmem : w ∈ ws) (hspan : w.start < w.stop)
    (_h1 : element.timeFrame.start < cutTime) (_h2 : cutTime < element.timeFrame.stop) :
    (w.stop ≤ cutTime →
      w ∈ wordsOf (cutClips element cutTime newId).1 ∧
      shiftWord (cutTime - element.timeFrame.start) w ∉
        wordsOf (cutClips element cutTime newId).2) ∧
    (cutTime ≤ w.start →
      w ∉ wordsOf (cutClips element cutTime newId).1 ∧
      shiftWord (cutTime - element.timeFrame.start) w ∈
        wordsOf (cutClips element cutTime newId).2) ∧
    (w.start < cutTime → cutTime < w.stop →
      w ∉ wordsOf (cutClips element cutTime newId).1 ∧
      shiftWord (cutTime - element.timeFrame.start) w ∉
        wordsOf (cutClips element cutTime newId).2) := by
  obtain ⟨hf, hs⟩ := cutClips_text_words element p ws cutTime newId htype hp hws
  have hsnd : shiftWord (cutTime - element.timeFrame.start) w ∈
      wordsOf (cutClips element cutTime newId).2 → cutTime ≤ w.start := by
    rw [hs]
    intro h
    obtain ⟨w', hw', heq⟩ := List.mem_map.mp h
    have := shiftWord_injective (cutTime - element.timeFrame.start) heq
    subst this
    simpa only [wordStartsFrom, decide_eq_true_eq] using (List.mem_filter.mp hw').2
  have hfst : w ∈ wordsOf (cutClips element cutTime newId).1 → w.stop ≤ cutTime := by
    rw [hf]
    intro h
    simpa only [wordEndsBy, decide_eq_true_eq] using (List.mem_filter.mp h).2
  refine ⟨?_, ?_, ?_⟩
  · intro hle
    refine ⟨?_, fun h => ?_⟩
    · rw [hf]
      exact List.mem_filter.mpr ⟨hmem, by simp only [wordEndsBy, decide_eq_true_eq]; exact hle⟩
    · have := hsnd h
      linarith
  · intro hge
    refine ⟨fun h => ?_, ?_⟩
    · have := hfst h
      linarith
    · rw [hs]
      exact List.mem_map_of_mem _
        (List.mem_filter.mpr ⟨hmem, by simp only [wordStartsFrom, decide_eq_true_eq]; exact hge⟩)
  · intro hlt1 hlt2
    refine ⟨fun h => ?_, fun h => ?_⟩
    · have := hfst h
      linarith
    · have := hsnd h
      linarith

/-- Witness for the amended C8: the word `{1000, 2000}` of the spec's
subtitle example ends by the cut at 2200, so it lands in the first clip
only. -/
theorem cut_text_word_exclusive_witness :
    (exampleTextElement.type = ElementType.text ∧
      exampleTextElement.properties =
        some ⟨none, none, some [⟨"a", 0, 1000⟩, ⟨"b", 1000, 2000⟩, ⟨"c", 2500, 3500⟩]⟩ ∧
      (⟨"b", 1000, 2000⟩ : Word) ∈
        [(⟨"a", 0, 1000⟩ : Word), ⟨"b", 1000, 2000⟩, ⟨"c", 2500, 3500⟩] ∧
      (1000 : ℚ) < 2000 ∧
      exampleTextElement.timeFrame.start < (2200 : ℚ) ∧
      (2200 : ℚ) < exampleTextElement.timeFrame.stop ∧
      (2000 : ℚ) ≤ 2200) ∧
    ((⟨"b", 1000, 2000⟩ : Word) ∈ wordsOf (cutClips exampleTextElement 2200 99).1 ∧
      shiftWord (2200 - exampleTextElement.timeFrame.start) ⟨"b", 1000, 2000⟩ ∉
        wordsOf (cutClips exampleTextElement 2200 99).2) :=
  ⟨⟨by decide, by decide, by decide, by decide, by decide, by decide, by decide⟩,
    (cut_text_word_exclusive exampleTextElement
      ⟨none, none, some [⟨"a", 0, 1000⟩, ⟨"b", 1000, 2000⟩, ⟨"c", 2500, 3500⟩]⟩
      [⟨"a", 0, 1000⟩, ⟨"b", 1000, 2000⟩, ⟨"c", 2500, 3500⟩] ⟨"b", 1000, 2000⟩ 2200 99
      (by decide) (by decide) (by decide) (by decide) (by decide) (by decide)
      (by decide)).1 (by decide)⟩

/-- C5 counterexample: `finishFileGhostDragUtil` has no `try/finally`, so
when the commit callback throws, the reset lines never run — the exception
propagates (`.2 = true`) with the ghost state still marked dragging and the
candidate data still in place, not back in the idle state. -/
theorem finishDrag_throwing_callback_stays_dragging :
    draggingStore.ghostState.isFileDragging = true ∧
    (finishFileGhostDragUtil draggingStore 500 3 (some throwingCallback)).2 = true ∧
    (finishFileGhostDragUtil draggingStore 500 3
      (some throwingCallback)).1.ghostState.isFileDragging = true ∧
    (finishFileGhostDragUtil draggingStore 500 3
      (some throwingCallback)).1.ghostState.fileData = some 7 := by
  decide

/-- C5 (amended): when the commit callback does not throw (or is absent),
`finishFileGhostDragUtil` from a dragging state ends in the idle state with
every candidate field cleared, and from the idle state it is a no-op; but a
throwing callback propagates the exception and the ghost state is left as
the callback left it — still dragging, not reset. -/
theorem finishDrag_resets_unless_throw (store : Store) (finalPosition : ℚ) (rowIndex : ℕ)
    (callback : Option CommitCallback)
    (hnt : ∀ f, callback = some f → (f finalPosition rowIndex store).2 = false) :
    (finishFileGhostDragUtil store finalPosition rowIndex callback).2 = false ∧
    (store.ghostState.isFileDragging = true →
      (finishFileGhostDragUtil store finalPosition rowIndex callback).1.ghostState =
        { isFileDragging := false, fileData := none, fileGhostElement := none,
          ghostMarkerPosition := none, dragOverRowIndex := none, isIncompatibleRow := false }) ∧
    (store.ghostState.isFileDragging = false →
      finishFileGhostDragUtil store finalPosition rowIndex callback = (store, false)) := by
  cases hb : store.ghostState.isFileDragging with
  | false => simp [finishFileGhostDragUtil, hb]
  | true =>
    cases callback with
    | none => simp [finishFileGhostDragUtil, hb, clearedGhostState]
    | some f =>
      have hf := hnt f rfl
      simp [finishFileGhostDragUtil, hb, hf, clearedGhostState]

/-- Witness for the amended C5: finishing the example drag with no callback
returns to the idle state. -/
theorem finishDrag_resets_unless_throw_witness :
    (∀ f, (none : Option CommitCallback) = some f → (f 500 3 draggingStore).2 = false) ∧
    ((finishFileGhostDragUtil draggingStore 500 3 none).2 = false ∧
    (draggingStore.ghostState.isFileDragging = true →
      (finishFileGhostDragUtil draggingStore 500 3 none).1.ghostState =
        { isFileDragging := false, fileData := none, fileGhostElement := none,
          ghostMarkerPosition := none, dragOverRowIndex := none, isIncompatibleRow := false }) ∧
    (draggingStore.ghostState.isFileDragging = false →
      finishFileGhostDragUtil draggingStore 500 3 none = (draggingStore, false))) :=
  ⟨fun _ hf => Option.noConfusion hf,
    finishDrag_resets_unless_throw draggingStore 500 3 none
      (fun _ hf => Option.noConfusion hf)⟩

/-- C6 counterexample: `startFileGhostDragUtil` has no already-dragging
guard; called on a store that is mid-drag (file 7, a 1000ms video
candidate) with file 8 and a 2000ms audio default, it replaces the dragged
file reference and the candidate element instead of being a no-op. -/
theorem startDrag_while_dragging_overwrites :
    draggingStore.ghostState.isFileDragging = true ∧
    draggingStore.ghostState.fileData = some 7 ∧
    (startFileGhostDragUtil draggingStore 8 ElementType.audio 2000).ghostState.fileData = some 8 ∧
    some 8 ≠ some 7 ∧
    (startFileGhostDragUtil draggingStore 8 ElementType.audio 2000).ghostState.fileGhostElement ≠
      draggingStore.ghostState.fileGhostElement := by
  decide

/-- C6 (amended): a `startFileGhostDragUtil` call made while already
dragging is not a no-op — it keeps the dragging flag set but overwrites the
dragged file reference and rebuilds the candidate element from the new
arguments with time frame `{0, defaultDuration}` (while the marker
position, target-row fields and element list pass through unchanged). -/
theorem startDrag_overwrites_current_drag (store : Store) (file : ℕ)
    (elementType : ElementType) (defaultDuration : ℚ)
    (_hdrag : store.ghostState.isFileDragging = true) :
    (startFileGhostDragUtil store file elementType defaultDuration).ghostState.isFileDragging
      = true ∧
    (startFileGhostDragUtil store file elementType defaultDuration).ghostState.fileData
      = some file ∧
    (startFileGhostDragUtil store file elementType defaultDuration).ghostState.fileGhostElement
      = some { type := elementType, duration := defaultDuration,
               timeFrame := { start := 0, stop := defaultDuration }, row := none } ∧
    (startFileGhostDragUtil store file elementType defaultDuration).ghostState.ghostMarkerPosition
      = store.ghostState.ghostMarkerPosition ∧
    (startFileGhostDragUtil store file elementType defaultDuration).ghostState.dragOverRowIndex
      = store.ghostState.dragOverRowIndex ∧
    (startFileGhostDragUtil store file elementType defaultDuration).editorElements
      = store.editorElements :=
  ⟨rfl, rfl, rfl, rfl, rfl, rfl⟩

/-- Witness for the amended C6 on the mid-drag example store. -/
theorem startDrag_overwrites_current_drag_witness :
    draggingStore.ghostState.isFileDragging = true ∧
    ((startFileGhostDragUtil draggingStore 8 ElementType.audio 2000).ghostState.isFileDragging
      = true ∧
    (startFileGhostDragUtil draggingStore 8 ElementType.audio 2000).ghostState.fileData
      = some 8 ∧
    (startFileGhostDragUtil draggingStore 8 ElementType.audio 2000).ghostState.fileGhostElement
      = some { type := ElementType.audio, duration := 2000,
               timeFrame := { start := 0, stop := 2000 }, row := none } ∧
    (startFileGhostDragUtil draggingStore 8 ElementType.audio 2000).ghostState.ghostMarkerPosition
      = draggingStore.ghostState.ghostMarkerPosition ∧
    (startFileGhostDragUtil draggingStore 8 ElementType.audio 2000).ghostState.dragOverRowIndex
      = draggingStore.ghostState.dragOverRowIndex ∧
    (startFileGhostDragUtil draggingStore 8 ElementType.audio 2000).editorElements
      = draggingStore.editorElements) :=
  ⟨by decide, startDrag_overwrites_current_drag draggingStore 8 ElementType.audio 2000 (by decide)⟩

/-- C9: none of the ghost-drag operations writes the element list.
`startFileGhostDragUtil` and `updateFileGhostUtil` leave `editorElements`
untouched unconditionally, and `finishFileGhostDragUtil` leaves it
untouched whenever the caller-supplied commit callback does — any change to
the element list can only come from that callback. -/
theorem ghost_machine_never_touches_elements (store : Store) (file : ℕ)
    (elementType : ElementType) (defaultDuration newPosition : ℚ) (rowIndex : ℕ)
    (isIncompatible : Bool) (finalPosition : ℚ) (rowIndex2 : ℕ)
    (callback : Option CommitCallback)
    (hcb : ∀ f, callback = some f →
      ((f finalPosition rowIndex2 store).1).editorElements = store.editorElements) :
    (startFileGhostDragUtil store file elementType defaultDuration).editorElements
      = store.editorElements ∧
    (updateFileGhostUtil store newPosition rowIndex isIncompatible).editorElements
      = store.editorElements ∧
    (finishFileGhostDragUtil store finalPosition rowIndex2 callback).1.editorElements
      = store.editorElements := by
  refine ⟨rfl, ?_, ?_⟩
  · unfold updateFileGhostUtil
    split
    · rfl
    · split
      · rfl
      · rfl
  · unfold finishFileGhostDragUtil
    split
    · rfl
    · cases callback with
      | none => rfl
      | some f =>
        have hf := hcb f rfl
        by_cases ht : (f finalPosition rowIndex2 store).2 = true
        · simp only [ht, if_true]
          exact hf
        · simp only [ht, if_false, Bool.false_eq_true]
          exact hf

/-- Witness for C9 on the mid-drag example store with no commit callback. -/
theorem ghost_machine_never_touches_elements_witness :
    (∀ f, (none : Option CommitCallback) = some f →
      ((f 500 3 draggingStore).1).editorElements = draggingStore.editorElements) ∧
    ((startFileGhostDragUtil draggingStore 8 ElementType.audio 2000).editorElements
      = draggingStore.editorElements ∧
    (updateFileGhostUtil draggingStore 700 4 false).editorElements
      = draggingStore.editorElements ∧
    (finishFileGhostDragUtil draggingStore 500 3 none).1.editorElements
      = draggingStore.editorElements) :=
  ⟨fun _ hf => Option.noConfusion hf,
    ghost_machine_never_touches_elements draggingStore 8 ElementType.audio 2000 700 4 false
      500 3 none (fun _ hf => Option.noConfusion hf)⟩

/-- C10: every zoom operation of the (spec-modelled) Zoom Manager lands in
the closed interval `[1, 29.5]`, whatever the prior zoom state; in
particular `setZoomValue 100` clamps to `29.5` and `setZoomValue (-5)`
clamps to `1`. -/
theorem zoom_value_always_clamped (z step v : ℚ) :
    (1 ≤ zoomIn z step ∧ zoomIn z step ≤ 59 / 2) ∧
    (1 ≤ zoomOut z step ∧ zoomOut z step ≤ 59 / 2) ∧
    (1 ≤ setZoomValue z v ∧ setZoomValue z v ≤ 59 / 2) ∧
    (1 ≤ resetZoom z ∧ resetZoom z ≤ 59 / 2) ∧
    setZoomValue z 100 = 59 / 2 ∧
    setZoomValue z (-5) = 1 := by
  have hb : ∀ x : ℚ, 1 ≤ clampZoom x ∧ clampZoom x ≤ 59 / 2 := fun x =>
    ⟨le_max_left _ _, max_le (by norm_num) (min_le_left _ _)⟩
  refine ⟨hb _, hb _, hb _, ⟨le_refl 1, by norm_num [resetZoom]⟩, ?_, ?_⟩
  · unfold setZoomValue clampZoom
    rw [min_eq_left (by norm_num), max_eq_right (by norm_num)]
  · unfold setZoomValue clampZoom
    rw [min_eq_right (by norm_num), max_eq_left (by norm_num)]

end VideoApp
